import Mathlib

/-!
Shallow embedding of the cecurepay-api ledger and reconciliation code.

The durable store (MongoDB collections `users`, `transactions`,
`transactionpins`) is modelled as lists of records; `findById` /
`findOne` become `List.find?` on the relevant key, and `doc.save()`
becomes an in-place update of the matching document.  Monetary values
(JS numbers) are modelled as `Rat`.  Route handlers from
`src/routes/transactions.js`, `src/unnamed/part_001` (the payments
router) and `src/routes/users.js` are translated function by function;
webhook handlers are those of `src/unnamed/part_001` lines 603-1045.

bcrypt is passed in as an opaque hashing function `bcrypt : String →
String` (the salt is folded into the function); `bcrypt.compare(c, h)`
is modelled as `bcrypt c == h`, and the `TransactionPinSchema.pre-save`
hook (src/unnamed/part_005) as applying `bcrypt` to the assigned
plaintext before the document is stored.

The `Beneficiary` collection is not modelled: no claim concerns it and
its writes touch neither balances nor transaction records.  Mongoose
runs enum validation on `doc.save()`: assigning a value outside a
schema enum makes `save()` throw, modelled by `saveTxStatusChecked` /
`saveNewTxChecked` (the surrounding try/catch of each handler then
determines what, if anything, persists).  Routes whose written values
all lie inside the enums (statuses `pending`/`successful`/`failed`,
types `send`/`receive`/`deposit`/`withdraw`) write directly, since
validation always passes there; `findOneAndUpdate` does not run
validators at all.  The declared enums are `schemaStatusEnum` /
`schemaTypeEnum`.
-/

abbrev Money := Rat

/-- One user document (src/models/User.js): only the fields the ledger
reads — the stable identity and the mutable balance. -/
structure Account where
  id : Nat
  balance : Money
deriving Repr, DecidableEq

/-- `transactionType` values the code actually writes.  Note
`withdrawal` (written by the payments-router withdraw route,
src/unnamed/part_001 line 174) is not in the schema enum. -/
inductive TxType
  | send
  | receive
  | deposit
  | withdraw
  | withdrawal
  | wishlist
deriving Repr, DecidableEq

/-- `status` values the code actually writes.  Note `reversed` and
`cancelled` are not in the schema enum (src/models/Transaction.js
lines 22-26). -/
inductive TxStatus
  | pending
  | successful
  | failed
  | declined
  | reversed
  | cancelled
deriving Repr, DecidableEq

/-- The `enum` list declared for `TransactionSchema.status`
(src/models/Transaction.js lines 22-26). -/
def schemaStatusEnum : List TxStatus :=
  [TxStatus.pending, TxStatus.successful, TxStatus.failed, TxStatus.declined]

/-- The `enum` list declared for `TransactionSchema.transactionType`
(src/models/Transaction.js line 11). -/
def schemaTypeEnum : List TxType :=
  [TxType.send, TxType.receive, TxType.deposit, TxType.withdraw, TxType.wishlist]

/-- One transaction document (src/models/Transaction.js).  The
`notes` assignment in `handleFailedTransfer` is not modelled: the
schema declares no `notes` path, so mongoose strict mode discards it. -/
structure TxRecord where
  userId : Nat
  transactionType : TxType
  amount : Money
  fee : Money
  status : TxStatus
  recipientId : Option Nat := none
  recipientName : Option String := none
  recipientBank : Option String := none
  recipientAccount : Option String := none
  purpose : Option String := none
  reference : String
deriving Repr, DecidableEq

/-- One transaction-PIN document (src/unnamed/part_005). -/
structure PinDoc where
  userId : Nat
  pinHash : String
deriving Repr, DecidableEq

/-- The durable store: the three collections the ledger mutates. -/
structure Store where
  users : List Account
  transactions : List TxRecord
  pins : List PinDoc
deriving Repr, DecidableEq

/-- `User.findById(uid)`. -/
def findUser (us : List Account) (uid : Nat) : Option Account :=
  us.find? (fun u => u.id == uid)

/-- `Transaction.findOne(\x7b reference \x7d)` (references are unique). -/
def findTxByRef (ts : List TxRecord) (ref : String) : Option TxRecord :=
  ts.find? (fun t => t.reference == ref)

/-- `TransactionPin.findOne(\x7b userId \x7d)`. -/
def findPin (ps : List PinDoc) (uid : Nat) : Option PinDoc :=
  ps.find? (fun p => p.userId == uid)

/-- `user.balance = newBal; await user.save()`: write the balance back
into the stored document with this id. -/
def saveUserBalance (us : List Account) (uid : Nat) (newBal : Money) : List Account :=
  us.map (fun u => if u.id = uid then { u with balance := newBal } else u)

/-- Set the status of the first stored record matching `p`
(`findOne`-then-`save`, or `findOneAndUpdate`, both touch exactly the
first match). -/
def setStatusFirstWhere (ts : List TxRecord) (p : TxRecord → Bool) (st : TxStatus) :
    List TxRecord :=
  match ts with
  | [] => []
  | t :: rest =>
    if p t then { t with status := st } :: rest
    else t :: setStatusFirstWhere rest p st

/-- Set the status of the (unique) record with this reference. -/
def setTxStatus (ts : List TxRecord) (ref : String) (st : TxStatus) : List TxRecord :=
  setStatusFirstWhere ts (fun t => t.reference == ref) st

/-- `doc.status = st; await doc.save()` with mongoose validation: a
status outside the schema enum makes `save()` throw (`none`);
otherwise the first record with this reference is updated. -/
def saveTxStatusChecked (ts : List TxRecord) (ref : String) (st : TxStatus) :
    Option (List TxRecord) :=
  if st ∈ schemaStatusEnum then some (setTxStatus ts ref st) else none

/-- `new Transaction(...).save()` with mongoose validation: a status
or transactionType outside its schema enum makes `save()` throw
(`none`); otherwise the document is appended. -/
def saveNewTxChecked (ts : List TxRecord) (t : TxRecord) : Option (List TxRecord) :=
  if t.status ∈ schemaStatusEnum ∧ t.transactionType ∈ schemaTypeEnum then
    some (ts ++ [t])
  else none

/-- `metadata` object carried in a Paystack event payload. -/
structure Metadata where
  userId : Option Nat
  originalReference : Option String
deriving Repr, DecidableEq

/-- `event.data` of a webhook payload. -/
structure EventData where
  reference : String
  amount : Money
  metadata : Option Metadata := none
  reason : Option String := none
deriving Repr, DecidableEq

/-- The event kinds dispatched by the webhook route
(src/unnamed/part_001 lines 617-633). -/
inductive WebhookEventKind
  | chargeSuccess
  | transferSuccess
  | transferFailed
  | transferReversed
  | otherKind (s : String)
deriving Repr, DecidableEq

/-- A parsed webhook body: `\x7b event, data \x7d`. -/
structure WebhookBody where
  event : WebhookEventKind
  data : EventData
deriving Repr, DecidableEq

/-- `handleSuccessfulPayment` (src/unnamed/part_001 lines 643-689):
guard on metadata.userId, find the user, skip if a transaction with
this reference already exists (the idempotency check), otherwise
credit `amount / 100` and append a successful deposit record. -/
def handleSuccessfulPayment (s : Store) (d : EventData) : Store :=
  match d.metadata with
  | none => s
  | some md =>
    match md.userId with
    | none => s
    | some uid =>
      let amountInNaira : Money := d.amount / 100
      match findUser s.users uid with
      | none => s
      | some user =>
        match findTxByRef s.transactions d.reference with
        | some _ => s
        | none =>
          let users1 := saveUserBalance s.users uid (user.balance + amountInNaira)
          let rec1 : TxRecord :=
            { userId := uid, transactionType := TxType.deposit, amount := amountInNaira,
              fee := 0, status := TxStatus.successful,
              purpose := some "Deposit via Paystack", reference := d.reference }
          { s with users := users1, transactions := s.transactions ++ [rec1] }

/-- `handleSuccessfulTransfer` (src/unnamed/part_001 lines 692-708):
guard on metadata.userId, then
`findOneAndUpdate(\x7b reference: metadata.originalReference \x7d, \x7b status: "successful" \x7d)`.
An absent `originalReference` is modelled as matching no record: the
schema requires every stored `reference`, so a filter on a missing
value cannot select one. -/
def handleSuccessfulTransfer (s : Store) (d : EventData) : Store :=
  match d.metadata with
  | none => s
  | some md =>
    match md.userId with
    | none => s
    | some _ =>
      match md.originalReference with
      | none => s
      | some origRef =>
        { s with transactions := setTxStatus s.transactions origRef TxStatus.successful }

/-- `handleFailedTransfer` (src/unnamed/part_001 lines 981-1008): find
the record by the event's reference, set its status to `failed`
(with no check of its current status), then refund the record's own
`amount` to the record's `userId`. -/
def handleFailedTransfer (s : Store) (d : EventData) : Store :=
  match findTxByRef s.transactions d.reference with
  | none => s
  | some t =>
    let s1 : Store := { s with transactions := setTxStatus s.transactions d.reference TxStatus.failed }
    match findUser s1.users t.userId with
    | none => s1
    | some sender =>
      { s1 with users := saveUserBalance s1.users sender.id (sender.balance + t.amount) }

/-- `handleReversedTransfer` (src/unnamed/part_001 lines 1010-1045):
find the record by reference, set its status to `reversed` with no
check of its current status, then refund the record's `amount` to its
`userId` and, if it has a `recipientId`, debit that account by the
same stored `amount`.  `reversed` is outside the schema status enum,
so in fact the very first `save()` throws, the handler's catch
swallows the error, and nothing after it runs: the refund and the
recipient debit are dead code (see `handleReversedTransfer_noop`). -/
def handleReversedTransfer (s : Store) (d : EventData) : Store :=
  match findTxByRef s.transactions d.reference with
  | none => s
  | some t =>
    match saveTxStatusChecked s.transactions d.reference TxStatus.reversed with
    | none => s
    | some txs1 =>
      let s1 : Store := { s with transactions := txs1 }
      let s2 : Store :=
        match findUser s1.users t.userId with
        | none => s1
        | some sender =>
          { s1 with users := saveUserBalance s1.users sender.id (sender.balance + t.amount) }
      match t.recipientId with
      | none => s2
      | some rid =>
        match findUser s2.users rid with
        | none => s2
        | some recipient =>
          { s2 with users := saveUserBalance s2.users recipient.id (recipient.balance - t.amount) }

/-- The `switch (event.event)` dispatch of the webhook route
(src/unnamed/part_001 lines 617-633). -/
def processWebhookEvent (s : Store) (b : WebhookBody) : Store :=
  match b.event with
  | WebhookEventKind.chargeSuccess => handleSuccessfulPayment s b.data
  | WebhookEventKind.transferSuccess => handleSuccessfulTransfer s b.data
  | WebhookEventKind.transferFailed => handleFailedTransfer s b.data
  | WebhookEventKind.transferReversed => handleReversedTransfer s b.data
  | WebhookEventKind.otherKind _ => s

/-- Balance of an account as read back from the store. -/
def balanceOf (s : Store) (uid : Nat) : Money :=
  ((findUser s.users uid).map (fun u => u.balance)).getD 0

/-- Status of the stored record with this reference, if any. -/
def statusOf (s : Store) (ref : String) : Option TxStatus :=
  (findTxByRef s.transactions ref).map (fun t => t.status)

/-- Structured errors returned by the routes (each corresponds to one
early-return JSON response in the source). -/
inductive ApiError
  | pinNotSet
  | invalidPin
  | senderNotFound
  | recipientNotFound
  | userNotFound
  | insufficientBalance
  | invalidAmount
  | txNotFound
  | duplicateReference
  | serverError
deriving Repr, DecidableEq

/-- Outcome of one route invocation.  `err = none` means the handler
committed; on an error return the mongoose session was aborted
(`session.abortTransaction()`), so `store` is the unchanged input
store. -/
structure RouteOutcome where
  store : Store
  err : Option ApiError
  reference : Option String
deriving Repr, DecidableEq

/-- `transactionPin.comparePin(candidate)` =
`bcrypt.compare(candidate, this.pinHash)` (src/unnamed/part_005
lines 79-81), with the salted hash modelled by the opaque `bcrypt`. -/
def comparePin (bcrypt : String → String) (doc : PinDoc) (candidate : String) : Bool :=
  bcrypt candidate == doc.pinHash

/-- Request body of POST api/transactions/transfer. -/
structure TransferReq where
  recipientId : Nat
  amount : Money
  pin : String
deriving Repr, DecidableEq

/-- `bankDetails` object of the bank-transfer and withdraw routes. -/
structure BankDetails where
  accountName : String
  bankName : String
  accountNumber : String
deriving Repr, DecidableEq

/-- Request body of POST api/transactions/bank-transfer and
POST api/transactions/withdraw. -/
structure BankReq where
  bankDetails : BankDetails
  amount : Money
  pin : String
deriving Repr, DecidableEq

/-- POST api/transactions/transfer (src/routes/transactions.js lines
92-205).  The express-validator chain checks only that `amount` is
numeric (no positivity check), which the `Money` type already
guarantees.  `ref` stands for the generated `TRX-` reference. -/
def transactionsTransfer (bcrypt : String → String) (s : Store) (callerId : Nat)
    (req : TransferReq) (ref : String) : RouteOutcome :=
  let fee : Money := 25
  match findPin s.pins callerId with
  | none => ⟨s, some ApiError.pinNotSet, none⟩
  | some pinDoc =>
    if !comparePin bcrypt pinDoc req.pin then ⟨s, some ApiError.invalidPin, none⟩
    else
      match findUser s.users callerId with
      | none => ⟨s, some ApiError.senderNotFound, none⟩
      | some sender =>
        if sender.balance < req.amount + fee then ⟨s, some ApiError.insufficientBalance, none⟩
        else
          match findUser s.users req.recipientId with
          | none => ⟨s, some ApiError.recipientNotFound, none⟩
          | some recipient =>
            let users1 := saveUserBalance s.users sender.id (sender.balance - (req.amount + fee))
            let users2 := saveUserBalance users1 recipient.id (recipient.balance + req.amount)
            let senderRec : TxRecord :=
              { userId := sender.id, transactionType := TxType.send, amount := req.amount,
                fee := fee, status := TxStatus.successful, recipientId := some recipient.id,
                reference := ref }
            let recipientRec : TxRecord :=
              { userId := recipient.id, transactionType := TxType.receive, amount := req.amount,
                fee := 0, status := TxStatus.successful, recipientId := some sender.id,
                reference := ref ++ "-RCV" }
            ⟨{ s with users := users2,
                      transactions := s.transactions ++ [senderRec, recipientRec] },
             none, some ref⟩

/-- POST api/transactions/bank-transfer (src/routes/transactions.js
lines 210-308).  Same guard sequence as the transfer route; a single
`send` record, status `successful`, fee 25. -/
def transactionsBankTransfer (bcrypt : String → String) (s : Store) (callerId : Nat)
    (req : BankReq) (ref : String) : RouteOutcome :=
  let fee : Money := 25
  match findPin s.pins callerId with
  | none => ⟨s, some ApiError.pinNotSet, none⟩
  | some pinDoc =>
    if !comparePin bcrypt pinDoc req.pin then ⟨s, some ApiError.invalidPin, none⟩
    else
      match findUser s.users callerId with
      | none => ⟨s, some ApiError.userNotFound, none⟩
      | some user =>
        if user.balance < req.amount + fee then ⟨s, some ApiError.insufficientBalance, none⟩
        else
          let users1 := saveUserBalance s.users user.id (user.balance - (req.amount + fee))
          let rec1 : TxRecord :=
            { userId := user.id, transactionType := TxType.send, amount := req.amount,
              fee := fee, status := TxStatus.successful,
              recipientName := some req.bankDetails.accountName,
              recipientBank := some req.bankDetails.bankName,
              recipientAccount := some req.bankDetails.accountNumber,
              purpose := some "Bank Transfer", reference := ref }
          ⟨{ s with users := users1, transactions := s.transactions ++ [rec1] },
           none, some ref⟩

/-- POST api/transactions/withdraw (src/routes/transactions.js lines
313-411).  Identical guard sequence; a single `withdraw` record,
status `successful`, fee 25. -/
def transactionsWithdraw (bcrypt : String → String) (s : Store) (callerId : Nat)
    (req : BankReq) (ref : String) : RouteOutcome :=
  let fee : Money := 25
  match findPin s.pins callerId with
  | none => ⟨s, some ApiError.pinNotSet, none⟩
  | some pinDoc =>
    if !comparePin bcrypt pinDoc req.pin then ⟨s, some ApiError.invalidPin, none⟩
    else
      match findUser s.users callerId with
      | none => ⟨s, some ApiError.userNotFound, none⟩
      | some user =>
        if user.balance < req.amount + fee then ⟨s, some ApiError.insufficientBalance, none⟩
        else
          let users1 := saveUserBalance s.users user.id (user.balance - (req.amount + fee))
          let rec1 : TxRecord :=
            { userId := user.id, transactionType := TxType.withdraw, amount := req.amount,
              fee := fee, status := TxStatus.successful,
              recipientName := some req.bankDetails.accountName,
              recipientBank := some req.bankDetails.bankName,
              recipientAccount := some req.bankDetails.accountNumber,
              purpose := some "Withdrawal", reference := ref }
          ⟨{ s with users := users1, transactions := s.transactions ++ [rec1] },
           none, some ref⟩

/-- POST api/transactions/deposit (src/routes/transactions.js lines
416-474): no PIN, no positivity check; credit and record immediately. -/
def transactionsDeposit (s : Store) (callerId : Nat) (amount : Money) (method : String)
    (ref : String) : RouteOutcome :=
  match findUser s.users callerId with
  | none => ⟨s, some ApiError.userNotFound, none⟩
  | some user =>
    let users1 := saveUserBalance s.users user.id (user.balance + amount)
    let rec1 : TxRecord :=
      { userId := user.id, transactionType := TxType.deposit, amount := amount, fee := 0,
        status := TxStatus.successful, purpose := some ("Deposit via " ++ method),
        reference := ref }
    ⟨{ s with users := users1, transactions := s.transactions ++ [rec1] }, none, some ref⟩

/-- POST api/transactions/confirm-deposit (src/routes/transactions.js
lines 479-542): duplicate-reference guard, then credit and record. -/
def confirmDeposit (s : Store) (callerId : Nat) (amount : Money) (ref : String) :
    RouteOutcome :=
  match findUser s.users callerId with
  | none => ⟨s, some ApiError.userNotFound, none⟩
  | some user =>
    match findTxByRef s.transactions ref with
    | some _ => ⟨s, some ApiError.duplicateReference, none⟩
    | none =>
      let users1 := saveUserBalance s.users user.id (user.balance + amount)
      let rec1 : TxRecord :=
        { userId := user.id, transactionType := TxType.deposit, amount := amount, fee := 0,
          status := TxStatus.successful, purpose := some "Deposit via Paystack",
          reference := ref }
      ⟨{ s with users := users1, transactions := s.transactions ++ [rec1] }, none, some ref⟩

/-- POST api/payments/bank-transfer/initiate (second router inside
src/routes/transactions.js, lines 554-605): creates a `pending`
deposit record, touching no balance. -/
def bankTransferInitiate (s : Store) (callerId : Nat) (amount : Money) (ref : String) :
    RouteOutcome :=
  if amount ≤ 0 then ⟨s, some ApiError.invalidAmount, none⟩
  else
    match findUser s.users callerId with
    | none => ⟨s, some ApiError.userNotFound, none⟩
    | some user =>
      let rec1 : TxRecord :=
        { userId := user.id, transactionType := TxType.deposit, amount := amount, fee := 0,
          status := TxStatus.pending, purpose := some "Bank Transfer Deposit",
          reference := ref }
      ⟨{ s with transactions := s.transactions ++ [rec1] }, none, some ref⟩

/-- POST api/payments/bank-transfer/cancel (same router, lines
610-652): `findOne` filters on reference, caller, kind `deposit` and
status `pending`, then writes status `cancelled`.  `cancelled` is
outside the schema status enum, so the `save()` throws and the route
answers 500 with nothing persisted. -/
def bankTransferCancel (s : Store) (callerId : Nat) (ref : String) : RouteOutcome :=
  let p : TxRecord → Bool := fun t =>
    t.reference == ref && t.userId == callerId &&
    t.transactionType == TxType.deposit && t.status == TxStatus.pending
  match s.transactions.find? p with
  | none => ⟨s, some ApiError.txNotFound, none⟩
  | some _ =>
    if TxStatus.cancelled ∈ schemaStatusEnum then
      ⟨{ s with transactions := setStatusFirstWhere s.transactions p TxStatus.cancelled },
       none, some ref⟩
    else ⟨s, some ApiError.serverError, none⟩

/-- POST api/payments/bank-transfer/confirm (same router, lines
657-708): move a pending deposit to `successful` and credit the
record's own amount to its user. -/
def bankTransferConfirm (s : Store) (ref : String) : RouteOutcome :=
  let p : TxRecord → Bool := fun t =>
    t.reference == ref && t.transactionType == TxType.deposit &&
    t.status == TxStatus.pending
  match s.transactions.find? p with
  | none => ⟨s, some ApiError.txNotFound, none⟩
  | some t =>
    match findUser s.users t.userId with
    | none => ⟨s, some ApiError.userNotFound, none⟩
    | some user =>
      let txs1 := setStatusFirstWhere s.transactions p TxStatus.successful
      let users1 := saveUserBalance s.users user.id (user.balance + t.amount)
      ⟨{ s with users := users1, transactions := txs1 }, none, some ref⟩

/-- POST api/payments/withdraw (src/unnamed/part_001 lines 104-204).
The outbound Paystack recipient/transfer calls are modelled as having
succeeded, with `transferCode` the `transfer_code` the gateway
returned.  The balance debit is saved first; the record is then
created with status `pending` and transactionType `"withdrawal"` — a
value outside the schema type enum — so its `save()` throws and the
route answers 500 with the debit already persisted and no record
created. -/
def paymentsWithdraw (s : Store) (callerId : Nat) (amount : Money)
    (details : BankDetails) (transferCode : String) : RouteOutcome :=
  match findUser s.users callerId with
  | none => ⟨s, some ApiError.userNotFound, none⟩
  | some user =>
    if user.balance < amount then ⟨s, some ApiError.insufficientBalance, none⟩
    else
      let users1 := saveUserBalance s.users user.id (user.balance - amount)
      let rec1 : TxRecord :=
        { userId := user.id, transactionType := TxType.withdrawal, amount := amount,
          fee := 0, status := TxStatus.pending,
          recipientName := some details.accountName, reference := transferCode }
      match saveNewTxChecked s.transactions rec1 with
      | none => ⟨{ s with users := users1 }, some ApiError.serverError, none⟩
      | some txs1 =>
        ⟨{ s with users := users1, transactions := txs1 }, none, some transferCode⟩

/-- POST api/payments/transfer (src/unnamed/part_001 lines 862-979).
This route does validate `amount <= 0`.  Both balances move
immediately and both records are created `successful` with fee 0, even
though a provider transfer was initiated. -/
def paymentsTransfer (s : Store) (callerId : Nat) (recipientId : Nat) (amount : Money)
    (transferCode : String) : RouteOutcome :=
  if amount ≤ 0 then ⟨s, some ApiError.invalidAmount, none⟩
  else
    match findUser s.users callerId with
    | none => ⟨s, some ApiError.senderNotFound, none⟩
    | some sender =>
      if sender.balance < amount then ⟨s, some ApiError.insufficientBalance, none⟩
      else
        match findUser s.users recipientId with
        | none => ⟨s, some ApiError.recipientNotFound, none⟩
        | some recipient =>
          let users1 := saveUserBalance s.users sender.id (sender.balance - amount)
          let users2 := saveUserBalance users1 recipient.id (recipient.balance + amount)
          let senderRec : TxRecord :=
            { userId := sender.id, transactionType := TxType.send, amount := amount,
              fee := 0, status := TxStatus.successful, recipientId := some recipient.id,
              reference := transferCode }
          let recipientRec : TxRecord :=
            { userId := recipient.id, transactionType := TxType.receive, amount := amount,
              fee := 0, status := TxStatus.successful, recipientId := some sender.id,
              reference := transferCode ++ "-RCV" }
          ⟨{ s with users := users2,
                    transactions := s.transactions ++ [senderRec, recipientRec] },
           none, some transferCode⟩

/-- POST api/users/transaction-pin (src/routes/users.js lines 76-110)
combined with the pre-save bcrypt hook of src/unnamed/part_005: the
submitted plaintext is assigned to `pinHash` and the hook replaces it
with its bcrypt hash before the document is stored. -/
def setTransactionPin (bcrypt : String → String) (s : Store) (callerId : Nat)
    (pin : String) : Store :=
  match findPin s.pins callerId with
  | some _ =>
    { s with pins := s.pins.map (fun p =>
        if p.userId = callerId then { p with pinHash := bcrypt pin } else p) }
  | none => { s with pins := s.pins ++ [⟨callerId, bcrypt pin⟩] }

/-- JSON string literal (model: the serialized strings contain no
characters needing escapes). -/
def jsonStr (s : String) : String := "\"" ++ s ++ "\""

/-- JSON rendering of a number. -/
def numJson (q : Rat) : String :=
  if q.den = 1 then toString q.num else toString q.num ++ "/" ++ toString q.den

/-- The `event` discriminator string of each kind. -/
def eventKindName : WebhookEventKind → String
  | WebhookEventKind.chargeSuccess => "charge.success"
  | WebhookEventKind.transferSuccess => "transfer.success"
  | WebhookEventKind.transferFailed => "transfer.failed"
  | WebhookEventKind.transferReversed => "transfer.reversed"
  | WebhookEventKind.otherKind s => s

/-- `JSON.stringify` of a metadata object (fields present only when
set, in insertion order, no whitespace). -/
def metadataJson (md : Metadata) : String :=
  let uidPart :=
    match md.userId with
    | none => ""
    | some uid => jsonStr "userId" ++ ":" ++ jsonStr (toString uid)
  let refPart :=
    match md.originalReference with
    | none => ""
    | some r =>
      (if uidPart = "" then "" else ",") ++ jsonStr "originalReference" ++ ":" ++ jsonStr r
  "\x7b" ++ uidPart ++ refPart ++ "\x7d"

/-- `JSON.stringify` of an `event.data` object. -/
def eventDataJson (d : EventData) : String :=
  "\x7b" ++ jsonStr "reference" ++ ":" ++ jsonStr d.reference ++ "," ++
    jsonStr "amount" ++ ":" ++ numJson d.amount ++
    (match d.metadata with
     | none => ""
     | some md => "," ++ jsonStr "metadata" ++ ":" ++ metadataJson md) ++
    (match d.reason with
     | none => ""
     | some r => "," ++ jsonStr "reason" ++ ":" ++ jsonStr r) ++
    "\x7d"

/-- `JSON.stringify(req.body)`: the canonical, whitespace-free
re-serialization of the parsed webhook body. -/
def webhookBodyJson (b : WebhookBody) : String :=
  "\x7b" ++ jsonStr "event" ++ ":" ++ jsonStr (eventKindName b.event) ++ "," ++
    jsonStr "data" ++ ":" ++ eventDataJson b.data ++ "\x7d"

/-- One inbound webhook HTTP request: the exact raw body bytes
received on the wire, the body as parsed by the JSON middleware, and
the `x-paystack-signature` header. -/
structure WebhookRequest where
  rawBody : String
  body : WebhookBody
  signatureHeader : String

/-- The byte string the route feeds to `crypto.createHmac(...)`
(src/unnamed/part_001 lines 606-609): `JSON.stringify(req.body)` — a
function of the parsed body only, not of the raw bytes. -/
def webhookMacInput (req : WebhookRequest) : String :=
  webhookBodyJson req.body

/-- JSON whitespace. -/
def isJsonWs (s : String) : Bool :=
  s.toList.all (fun c => c == ' ' || c == '\n' || c == '\t' || c == '\r')

/-- A sound under-approximation of "this raw byte string JSON-parses
to this body": the canonical serialization padded with whitespace.
(Real JSON parsing accepts strictly more raw strings per body.) -/
def rawRepresents (raw : String) (b : WebhookBody) : Prop :=
  ∃ pre post, isJsonWs pre = true ∧ isJsonWs post = true ∧
    raw = pre ++ webhookBodyJson b ++ post

/-- POST api/payments/webhook (src/unnamed/part_001 lines 603-640):
compute the HMAC of `webhookMacInput` with the shared secret, reject
with 400 and no further action if it differs from the signature
header, otherwise dispatch on the event kind.  `hmac secret msg`
stands for `crypto.createHmac("sha512", secret).update(msg).digest("hex")`.
The returned Bool is true when the event was accepted and dispatched. -/
def webhookPost (hmac : String → String → String) (secret : String) (s : Store)
    (req : WebhookRequest) : Store × Bool :=
  let hash := hmac secret (webhookMacInput req)
  if hash ≠ req.signatureHeader then (s, false)
  else (processWebhookEvent s req.body, true)

/-- Signature mismatch is fail-closed: the store is untouched and no
handler runs. -/
theorem webhookPost_fail_closed (hmac : String → String → String) (secret : String)
    (s : Store) (req : WebhookRequest)
    (h : hmac secret (webhookMacInput req) ≠ req.signatureHeader) :
    webhookPost hmac secret s req = (s, false) := by
  simp [webhookPost, h]

/-! Helper lemmas about the store primitives. -/

theorem findUser_saveUserBalance (us : List Account) (uid v : Nat) (bal : Money) :
    findUser (saveUserBalance us uid bal) v =
      (findUser us v).map (fun u => if u.id = uid then { u with balance := bal } else u) := by
  unfold findUser saveUserBalance
  rw [List.find?_map]
  congr 1
  have hp : ((fun (u : Account) => u.id == v) ∘
      fun u => if u.id = uid then { u with balance := bal } else u) =
      fun (u : Account) => u.id == v := by
    funext u
    by_cases h : u.id = uid <;> simp [h]
  rw [hp]

theorem findUser_id (us : List Account) (uid : Nat) (u : Account)
    (h : findUser us uid = some u) : u.id = uid := by
  have := List.find?_some h
  simpa using this

theorem mem_setStatusFirstWhere (ts : List TxRecord) (p : TxRecord → Bool)
    (st : TxStatus) (t : TxRecord) (h : t ∈ setStatusFirstWhere ts p st) :
    t ∈ ts ∨ t.status = st := by
  induction ts with
  | nil => simp [setStatusFirstWhere] at h
  | cons q rest ih =>
    simp only [setStatusFirstWhere] at h
    by_cases hq : p q
    · rw [if_pos hq] at h
      rcases List.mem_cons.mp h with h1 | h1
      · right; rw [h1]
      · left; simp [h1]
    · rw [if_neg hq] at h
      rcases List.mem_cons.mp h with h1 | h1
      · left; simp [h1]
      · rcases ih h1 with h2 | h2
        · left; simp [h2]
        · right; exact h2

/-- With enum validation modelled, the reversed-transfer handler
never persists anything: `reversed` is outside the schema status
enum, so its very first save throws and the handler's catch leaves
the store unchanged — no status change, no refund, no recipient
debit. -/
theorem handleReversedTransfer_noop (s : Store) (d : EventData) :
    handleReversedTransfer s d = s := by
  unfold handleReversedTransfer
  cases h : findTxByRef s.transactions d.reference with
  | none => rfl
  | some t => simp [saveTxStatusChecked, schemaStatusEnum]

/-! Concrete stores and inputs used by the counterexample-style
theorems and the witnesses. -/

/-- Concrete stand-in for the bcrypt hash function, used wherever a
closed statement must evaluate a route. -/
def bcryptModel : String → String := fun p => "bcrypt$" ++ p

def c1Store : Store :=
  { users := [⟨1, 0⟩],
    transactions := [{ userId := 1, transactionType := TxType.withdraw, amount := 100,
                       fee := 0, status := TxStatus.pending, reference := "TRF-1" }],
    pins := [] }

def c1Event : WebhookBody :=
  ⟨WebhookEventKind.transferFailed, { reference := "TRF-1", amount := 100 }⟩

/-- C1: the claimed idempotency fails on the code.  A verified
`transfer.failed` event for a pending withdrawal of 100 refunds the
sender 100 on its first delivery and refunds another 100 on a
duplicate delivery of the identical payload: `handleFailedTransfer`
(src/unnamed/part_001 lines 981-1008) never checks the record's
current status before compensating, so the second delivery finds the
record again and re-applies the refund. -/
theorem c1_duplicate_transfer_failed_double_refund :
    balanceOf (processWebhookEvent c1Store c1Event) 1 = 100 ∧
    balanceOf (processWebhookEvent (processWebhookEvent c1Store c1Event) c1Event) 1 = 200 ∧
    statusOf (processWebhookEvent c1Store c1Event) "TRF-1" = some TxStatus.failed ∧
    (100 : Money) ≠ 200 := by
  refine ⟨?_, ?_, ?_, by norm_num⟩ <;>
    simp [c1Store, c1Event, processWebhookEvent, handleFailedTransfer, findTxByRef,
      findUser, setTxStatus, setStatusFirstWhere, saveUserBalance, balanceOf, statusOf,
      List.find?]
  all_goals norm_num

def c2Store : Store :=
  { users := [⟨1, 0⟩, ⟨2, 50⟩],
    transactions := [{ userId := 1, transactionType := TxType.send, amount := 100, fee := 0,
                       status := TxStatus.successful, recipientId := some 2,
                       reference := "TRF-S" }],
    pins := [] }

def c2Event : WebhookBody :=
  ⟨WebhookEventKind.transferFailed, { reference := "TRF-S", amount := 100 }⟩

/-- C2: the claimed state machine is not enforced.  A verified
`transfer.failed` event for a record already `successful` — the only
transition the claim allows out of `successful` is
`successful → reversed`, so `successful → failed` must be rejected
with status and balances unchanged — is applied by
`handleFailedTransfer` (src/unnamed/part_001 lines 981-1008):
`failed` is inside the schema status enum, so the save persists with
no check of the record's current status, the record moves
`successful → failed`, and the sender is refunded 100. -/
theorem c2_successful_to_failed_applied :
    statusOf c2Store "TRF-S" = some TxStatus.successful ∧
    statusOf (processWebhookEvent c2Store c2Event) "TRF-S" = some TxStatus.failed ∧
    balanceOf c2Store 1 = 0 ∧
    balanceOf (processWebhookEvent c2Store c2Event) 1 = 100 := by
  refine ⟨?_, ?_, ?_, ?_⟩ <;>
    simp [c2Store, c2Event, processWebhookEvent, handleFailedTransfer, findTxByRef,
      findUser, setTxStatus, setStatusFirstWhere, saveUserBalance, balanceOf, statusOf,
      List.find?]

def c3Body : WebhookBody :=
  ⟨WebhookEventKind.chargeSuccess, { reference := "REF-1", amount := 0 }⟩

/-- A raw request whose body bytes carry one trailing space: it parses
to `c3Body`, but its bytes differ from `JSON.stringify` of the parse. -/
def c3Request : WebhookRequest :=
  ⟨webhookBodyJson c3Body ++ " ", c3Body, "0123abcd"⟩

/-- C3: the webhook route does not MAC the raw payload bytes.  The
route (src/unnamed/part_001 lines 606-609) feeds
`JSON.stringify(req.body)` — a re-serialization of the parsed body —
to the keyed hash.  For the valid request `c3Request`, whose raw bytes
end in a space, the MAC input differs from the raw bytes received, so
the computed signature is not a MAC of the exact raw payload. -/
theorem c3_mac_input_is_reserialization_not_raw :
    rawRepresents c3Request.rawBody c3Request.body ∧
    webhookMacInput c3Request ≠ c3Request.rawBody := by
  constructor
  · exact ⟨"", " ", by decide, by decide, by simp [c3Request]⟩
  · show webhookBodyJson c3Body ≠ webhookBodyJson c3Body ++ " "
    intro h
    have hl := congrArg String.length h
    simp [String.length_append] at hl
    have hone : (" " : String).length = 1 := rfl
    omega

def c4Store : Store :=
  { users := [⟨1, 500⟩, ⟨2, 500⟩],
    transactions := [],
    pins := [⟨1, bcryptModel "1234"⟩] }

/-- C4: the transactions-router transfer accepts a non-positive
amount.  With a valid PIN, `amount = -50` passes every guard of
POST api/transactions/transfer (the validator only checks that the
amount is numeric, and `500 < -50 + 25` is false), and the operation
commits: the sender is credited 25, the recipient debited 50, and a
`successful` record with amount -50 is created — no invalid-amount
rejection occurs. -/
theorem c4_negative_amount_transfer_commits :
    (transactionsTransfer bcryptModel c4Store 1 ⟨2, -50, "1234"⟩ "TRX-1").err = none ∧
    balanceOf (transactionsTransfer bcryptModel c4Store 1 ⟨2, -50, "1234"⟩ "TRX-1").store 1
      = 525 ∧
    balanceOf (transactionsTransfer bcryptModel c4Store 1 ⟨2, -50, "1234"⟩ "TRX-1").store 2
      = 450 ∧
    (findTxByRef
        (transactionsTransfer bcryptModel c4Store 1 ⟨2, -50, "1234"⟩ "TRX-1").store.transactions
        "TRX-1").map (fun t => t.amount) = some (-50) ∧
    ((-50 : Money) ≤ 0) := by
  refine ⟨?_, ?_, ?_, ?_, by norm_num⟩ <;>
    simp [transactionsTransfer, c4Store, findPin, comparePin, bcryptModel, findUser,
      saveUserBalance, balanceOf, findTxByRef, List.find?] <;> norm_num

/-- C5: a withdrawal whose account balance is below `amount + fee`
fails with the insufficient-balance error, and the store — balances
and transaction records alike — is exactly the input store: the route
(src/routes/transactions.js lines 313-411) aborts its session before
any mutation. -/
theorem c5_withdraw_insufficient_balance (bcrypt : String → String) (s : Store)
    (uid : Nat) (req : BankReq) (ref : String) (pinDoc : PinDoc) (user : Account)
    (hpin : findPin s.pins uid = some pinDoc)
    (hcmp : comparePin bcrypt pinDoc req.pin = true)
    (huser : findUser s.users uid = some user)
    (hbal : user.balance < req.amount + 25) :
    transactionsWithdraw bcrypt s uid req ref
      = ⟨s, some ApiError.insufficientBalance, none⟩ := by
  simp [transactionsWithdraw, hpin, hcmp, huser, hbal]

def c5Store : Store :=
  { users := [⟨1, 100⟩], transactions := [], pins := [⟨1, bcryptModel "1234"⟩] }

/-- Witness for C5 at the spec's scenario: balance 100, amount 150,
fee 25, valid pin. -/
theorem c5_withdraw_insufficient_balance_witness :
    transactionsWithdraw bcryptModel c5Store 1 ⟨⟨"Acct", "Bank", "0001"⟩, 150, "1234"⟩ "WTH-1"
      = ⟨c5Store, some ApiError.insufficientBalance, none⟩ :=
  c5_withdraw_insufficient_balance bcryptModel c5Store 1 _ "WTH-1" ⟨1, bcryptModel "1234"⟩
    ⟨1, 100⟩ (by simp [c5Store, findPin, List.find?]) (by simp [comparePin])
    (by simp [c5Store, findUser, List.find?]) (by norm_num)

/-- C6: a committed peer-to-peer transfer of 200 with fee 25 from A
(balance 500) to B (balance 500) leaves A at 275 (debited amount +
fee) and B at 700 (credited amount only — the fee is credited
nowhere), and appends exactly two `successful` records whose
references are `ref` and `ref ++ "-RCV"`
(src/routes/transactions.js lines 92-205). -/
theorem c6_transfer_scenario (bcrypt : String → String) (s : Store) (a b : Nat)
    (pin ref : String) (pinDoc : PinDoc)
    (hab : a ≠ b)
    (hpin : findPin s.pins a = some pinDoc)
    (hcmp : comparePin bcrypt pinDoc pin = true)
    (ha : findUser s.users a = some ⟨a, 500⟩)
    (hb : findUser s.users b = some ⟨b, 500⟩) :
    (transactionsTransfer bcrypt s a ⟨b, 200, pin⟩ ref).err = none ∧
    balanceOf (transactionsTransfer bcrypt s a ⟨b, 200, pin⟩ ref).store a = 275 ∧
    balanceOf (transactionsTransfer bcrypt s a ⟨b, 200, pin⟩ ref).store b = 700 ∧
    (transactionsTransfer bcrypt s a ⟨b, 200, pin⟩ ref).store.transactions
      = s.transactions ++
        [{ userId := a, transactionType := TxType.send, amount := 200, fee := 25,
           status := TxStatus.successful, recipientId := some b, reference := ref },
         { userId := b, transactionType := TxType.receive, amount := 200, fee := 0,
           status := TxStatus.successful, recipientId := some a,
           reference := ref ++ "-RCV" }] := by
  have hguard : ¬ ((500 : Money) < 200 + 25) := by norm_num
  refine ⟨?_, ?_, ?_, ?_⟩ <;>
    simp [transactionsTransfer, hpin, hcmp, ha, hb, hguard, balanceOf,
      findUser_saveUserBalance, hab, Ne.symm hab] <;> norm_num

def c6Store : Store :=
  { users := [⟨1, 500⟩, ⟨2, 500⟩], transactions := [], pins := [⟨1, bcryptModel "1234"⟩] }

/-- Witness for C6 at the spec's scenario. -/
theorem c6_transfer_scenario_witness :
    balanceOf (transactionsTransfer bcryptModel c6Store 1 ⟨2, 200, "1234"⟩ "TRX-9").store 1
      = 275 ∧
    balanceOf (transactionsTransfer bcryptModel c6Store 1 ⟨2, 200, "1234"⟩ "TRX-9").store 2
      = 700 :=
  ⟨(c6_transfer_scenario bcryptModel c6Store 1 2 "1234" "TRX-9" ⟨1, bcryptModel "1234"⟩
      (by decide) (by simp [c6Store, findPin, List.find?]) (by simp [comparePin])
      (by simp [c6Store, findUser, List.find?]) (by simp [c6Store, findUser, List.find?])).2.1,
   (c6_transfer_scenario bcryptModel c6Store 1 2 "1234" "TRX-9" ⟨1, bcryptModel "1234"⟩
      (by decide) (by simp [c6Store, findPin, List.find?]) (by simp [comparePin])
      (by simp [c6Store, findUser, List.find?]) (by simp [c6Store, findUser, List.find?])).2.2.1⟩

theorem findPin_setTransactionPin (bcrypt : String → String) (s : Store) (uid : Nat)
    (pin : String) :
    findPin (setTransactionPin bcrypt s uid pin).pins uid = some ⟨uid, bcrypt pin⟩ := by
  unfold setTransactionPin
  cases hfp : findPin s.pins uid with
  | none =>
    simp only [findPin] at hfp ⊢
    rw [List.find?_append, hfp]
    simp [List.find?]
  | some doc =>
    have hid : doc.userId = uid := by
      have := List.find?_some hfp
      simpa using this
    simp only [findPin] at hfp ⊢
    rw [List.find?_map]
    have hp : ((fun (p : PinDoc) => p.userId == uid) ∘
        fun p => if p.userId = uid then { p with pinHash := bcrypt pin } else p) =
        fun (p : PinDoc) => p.userId == uid := by
      funext p
      by_cases h : p.userId = uid <;> simp [h]
    rw [hp, hfp]
    simp [hid]

def c7OpenStore : Store :=
  { users := [⟨1, 500⟩, ⟨2, 500⟩], transactions := [], pins := [] }

/-- C7 counterexample: the payments-router transfer
(src/unnamed/part_001 lines 862-979) moves money with no PIN
verification at all.  The caller has no stored transaction PIN
(`findPin = none`), yet the transfer commits and both balances move;
the claim requires a PIN-not-set failure with no mutation.  The
payments-router withdraw (lines 104-204) likewise performs no PIN
check. -/
theorem c7_payments_transfer_no_pin_check :
    findPin c7OpenStore.pins 1 = none ∧
    (paymentsTransfer c7OpenStore 1 2 100 "TC-1").err = none ∧
    balanceOf (paymentsTransfer c7OpenStore 1 2 100 "TC-1").store 1 = 400 ∧
    balanceOf (paymentsTransfer c7OpenStore 1 2 100 "TC-1").store 2 = 600 := by
  have h1 : ¬ ((100 : Money) ≤ 0) := by norm_num
  have h2 : ¬ ((500 : Money) < 100) := by norm_num
  refine ⟨by simp [c7OpenStore, findPin], ?_, ?_, ?_⟩ <;>
    simp [paymentsTransfer, c7OpenStore, findUser, saveUserBalance, balanceOf,
      List.find?, h1, h2]
  all_goals norm_num

/-- C7 amended: the PIN guard holds on the money-movement routes of
src/routes/transactions.js (the payments-router transfer and withdraw
perform no PIN verification — see the counterexample): with no stored
PIN document the route fails `pinNotSet`; with a stored PIN whose
bcrypt comparison fails it fails `invalidPin`; in both cases the
returned store is the unchanged input store (no balance mutation, no
record).  And the PIN-set route (src/routes/users.js lines 76-110
plus the pre-save hook of src/unnamed/part_005) stores exactly the
bcrypt hash of the submitted plaintext as the credential. -/
theorem c7_pin_guard (bcrypt : String → String) (s : Store) (uid : Nat) :
    (∀ (req : TransferReq) (ref : String), findPin s.pins uid = none →
      transactionsTransfer bcrypt s uid req ref = ⟨s, some ApiError.pinNotSet, none⟩) ∧
    (∀ (req : TransferReq) (ref : String) (pinDoc : PinDoc),
      findPin s.pins uid = some pinDoc → comparePin bcrypt pinDoc req.pin = false →
      transactionsTransfer bcrypt s uid req ref = ⟨s, some ApiError.invalidPin, none⟩) ∧
    (∀ (req : BankReq) (ref : String), findPin s.pins uid = none →
      transactionsBankTransfer bcrypt s uid req ref = ⟨s, some ApiError.pinNotSet, none⟩) ∧
    (∀ (req : BankReq) (ref : String) (pinDoc : PinDoc),
      findPin s.pins uid = some pinDoc → comparePin bcrypt pinDoc req.pin = false →
      transactionsBankTransfer bcrypt s uid req ref = ⟨s, some ApiError.invalidPin, none⟩) ∧
    (∀ (req : BankReq) (ref : String), findPin s.pins uid = none →
      transactionsWithdraw bcrypt s uid req ref = ⟨s, some ApiError.pinNotSet, none⟩) ∧
    (∀ (req : BankReq) (ref : String) (pinDoc : PinDoc),
      findPin s.pins uid = some pinDoc → comparePin bcrypt pinDoc req.pin = false →
      transactionsWithdraw bcrypt s uid req ref = ⟨s, some ApiError.invalidPin, none⟩) ∧
    (∀ (pin : String),
      findPin (setTransactionPin bcrypt s uid pin).pins uid = some ⟨uid, bcrypt pin⟩) := by
  refine ⟨?_, ?_, ?_, ?_, ?_, ?_, fun pin => findPin_setTransactionPin bcrypt s uid pin⟩
  · intro req ref h
    simp [transactionsTransfer, h]
  · intro req ref pinDoc h hc
    simp [transactionsTransfer, h, hc]
  · intro req ref h
    simp [transactionsBankTransfer, h]
  · intro req ref pinDoc h hc
    simp [transactionsBankTransfer, h, hc]
  · intro req ref h
    simp [transactionsWithdraw, h]
  · intro req ref pinDoc h hc
    simp [transactionsWithdraw, h, hc]

def c7Store : Store :=
  { users := [⟨1, 500⟩], transactions := [], pins := [⟨1, bcryptModel "1234"⟩] }

def c7NoPinStore : Store :=
  { users := [⟨1, 500⟩], transactions := [], pins := [] }

/-- Witness for C7: no stored PIN fails `pinNotSet`, a wrong PIN fails
`invalidPin` (both leaving the store untouched), and setting PIN
"1234" stores its bcrypt hash. -/
theorem c7_pin_guard_witness :
    transactionsTransfer bcryptModel c7NoPinStore 1 ⟨2, 10, "1234"⟩ "R1"
      = ⟨c7NoPinStore, some ApiError.pinNotSet, none⟩ ∧
    transactionsWithdraw bcryptModel c7Store 1 ⟨⟨"A", "B", "C"⟩, 10, "9999"⟩ "R2"
      = ⟨c7Store, some ApiError.invalidPin, none⟩ ∧
    findPin (setTransactionPin bcryptModel c7NoPinStore 1 "1234").pins 1
      = some ⟨1, bcryptModel "1234"⟩ :=
  ⟨(c7_pin_guard bcryptModel c7NoPinStore 1).1 ⟨2, 10, "1234"⟩ "R1"
      (by simp [c7NoPinStore, findPin]),
   (c7_pin_guard bcryptModel c7Store 1).2.2.2.2.2.1 ⟨⟨"A", "B", "C"⟩, 10, "9999"⟩ "R2"
      ⟨1, bcryptModel "1234"⟩ (by simp [c7Store, findPin, List.find?])
      (by simp [comparePin, bcryptModel]),
   (c7_pin_guard bcryptModel c7NoPinStore 1).2.2.2.2.2.2 "1234"⟩

def c8Store : Store :=
  { users := [⟨1, 500⟩], transactions := [], pins := [⟨1, bcryptModel "1234"⟩] }

/-- C8 counterexample: a bank withdrawal through
POST api/transactions/withdraw — an operation whose settlement is a
bank payout — creates its record with status `successful`, not
`pending` (src/routes/transactions.js line 377), falsifying the
universal claim at this input. -/
theorem c8_bank_withdraw_created_successful :
    (transactionsWithdraw bcryptModel c8Store 1
        ⟨⟨"Acct", "Bank", "0001"⟩, 100, "1234"⟩ "WTH-9").err = none ∧
    statusOf (transactionsWithdraw bcryptModel c8Store 1
        ⟨⟨"Acct", "Bank", "0001"⟩, 100, "1234"⟩ "WTH-9").store "WTH-9"
      = some TxStatus.successful ∧
    TxStatus.successful ≠ TxStatus.pending := by
  have hguard : ¬ ((500 : Money) < 100 + 25) := by norm_num
  refine ⟨?_, ?_, by decide⟩ <;>
    simp [transactionsWithdraw, c8Store, findPin, comparePin, bcryptModel, findUser,
      saveUserBalance, statusOf, findTxByRef, List.find?, hguard]

/-- C8 amended: every record created by the bank-transfer-initiate
deposit is created `pending`; every record created by the on-platform
transfer, the deposit and confirm-deposit routes, the charge.success
handler — and also by the transactions-router bank transfer and bank
withdrawal and by the payments-router provider transfer, despite
their settlement depending on the provider — is created `successful`;
and the payments-router provider withdrawal creates no record at all:
its record write fails schema enum validation (transactionType
`"withdrawal"`) after the balance debit has already persisted. -/
theorem c8_record_creation_statuses (bcrypt : String → String) (s : Store) :
    (∀ (uid : Nat) (amount : Money) (details : BankDetails) (code : String)
        (t : TxRecord), t ∈ (paymentsWithdraw s uid amount details code).store.transactions →
      t ∈ s.transactions) ∧
    (∀ (uid : Nat) (amount : Money) (ref : String) (t : TxRecord),
      t ∈ (bankTransferInitiate s uid amount ref).store.transactions →
      t ∈ s.transactions ∨ t.status = TxStatus.pending) ∧
    (∀ (uid : Nat) (req : TransferReq) (ref : String) (t : TxRecord),
      t ∈ (transactionsTransfer bcrypt s uid req ref).store.transactions →
      t ∈ s.transactions ∨ t.status = TxStatus.successful) ∧
    (∀ (uid : Nat) (req : BankReq) (ref : String) (t : TxRecord),
      t ∈ (transactionsBankTransfer bcrypt s uid req ref).store.transactions →
      t ∈ s.transactions ∨ t.status = TxStatus.successful) ∧
    (∀ (uid : Nat) (req : BankReq) (ref : String) (t : TxRecord),
      t ∈ (transactionsWithdraw bcrypt s uid req ref).store.transactions →
      t ∈ s.transactions ∨ t.status = TxStatus.successful) ∧
    (∀ (uid : Nat) (amount : Money) (method ref : String) (t : TxRecord),
      t ∈ (transactionsDeposit s uid amount method ref).store.transactions →
      t ∈ s.transactions ∨ t.status = TxStatus.successful) ∧
    (∀ (uid : Nat) (amount : Money) (ref : String) (t : TxRecord),
      t ∈ (confirmDeposit s uid amount ref).store.transactions →
      t ∈ s.transactions ∨ t.status = TxStatus.successful) ∧
    (∀ (uid rid : Nat) (amount : Money) (code : String) (t : TxRecord),
      t ∈ (paymentsTransfer s uid rid amount code).store.transactions →
      t ∈ s.transactions ∨ t.status = TxStatus.successful) ∧
    (∀ (d : EventData) (t : TxRecord), t ∈ (handleSuccessfulPayment s d).transactions →
      t ∈ s.transactions ∨ t.status = TxStatus.successful) := by
  refine ⟨?_, ?_, ?_, ?_, ?_, ?_, ?_, ?_, ?_⟩
  all_goals
    intros
    rename_i t ht
    revert ht
    simp only [paymentsWithdraw, bankTransferInitiate, transactionsTransfer,
      transactionsBankTransfer, transactionsWithdraw, transactionsDeposit, confirmDeposit,
      paymentsTransfer, handleSuccessfulPayment]
    repeat' split
  all_goals intro ht
  all_goals
    first
      | exact Or.inl ht
      | exact ht
      | (simp at ht
         rcases ht with h | h | h
         · exact Or.inl h
         · exact Or.inr (by rw [h])
         · exact Or.inr (by rw [h]))
      | (simp at ht
         rcases ht with h | h
         · exact Or.inl h
         · exact Or.inr (by rw [h]))
      | (exfalso
         rename_i txs1 heq
         simp [saveNewTxChecked, schemaStatusEnum, schemaTypeEnum] at heq)

/-- Witness for the amended C8: a concrete bank-transfer-initiate
deposit yields a newly created record, and it is `pending`. -/
theorem c8_record_creation_statuses_witness :
    ({ userId := 1, transactionType := TxType.deposit, amount := 100, fee := 0,
       status := TxStatus.pending, purpose := some "Bank Transfer Deposit",
       reference := "BT-1" } : TxRecord) ∈ c8Store.transactions ∨
    ({ userId := 1, transactionType := TxType.deposit, amount := 100, fee := 0,
       status := TxStatus.pending, purpose := some "Bank Transfer Deposit",
       reference := "BT-1" } : TxRecord).status = TxStatus.pending :=
  (c8_record_creation_statuses bcryptModel c8Store).2.1 1 100 "BT-1" _
    (by simp [bankTransferInitiate, c8Store, findUser, List.find?,
      (show ¬ ((100 : Money) ≤ 0) by norm_num)])

/-- C9: compensation noninterference.  The failed/reversed handlers
read nothing from the event but its `reference`: two verified events
resolving to the same record produce identical stores whatever their
`amount` fields, and the refund applied by `handleFailedTransfer` is
the record's own stored `amount` added to the stored sender balance. -/
theorem c9_compensation_uses_stored_amount (s : Store) (d1 d2 : EventData)
    (href : d1.reference = d2.reference) :
    handleFailedTransfer s d1 = handleFailedTransfer s d2 ∧
    handleReversedTransfer s d1 = handleReversedTransfer s d2 ∧
    (∀ (t : TxRecord) (sender : Account),
      findTxByRef s.transactions d1.reference = some t →
      findUser s.users t.userId = some sender →
      balanceOf (handleFailedTransfer s d1) t.userId = sender.balance + t.amount) := by
  refine ⟨by simp only [handleFailedTransfer, href],
    by simp only [handleReversedTransfer, href], ?_⟩
  intro t sender ht hsender
  simp [handleFailedTransfer, ht, hsender, balanceOf, findUser_saveUserBalance]

def c9Tx : TxRecord :=
  { userId := 1, transactionType := TxType.withdraw, amount := 40, fee := 0,
    status := TxStatus.pending, reference := "TRF-A" }

def c9Store : Store := { users := [⟨1, 10⟩], transactions := [c9Tx], pins := [] }

def c9d1 : EventData := { reference := "TRF-A", amount := 40 }

def c9d2 : EventData := { reference := "TRF-A", amount := 999999 }

/-- Witness for C9: two failed-transfer events for the same record
with wildly different payload amounts produce the same store, and the
sender is refunded the record's stored 40. -/
theorem c9_compensation_uses_stored_amount_witness :
    handleFailedTransfer c9Store c9d1 = handleFailedTransfer c9Store c9d2 ∧
    balanceOf (handleFailedTransfer c9Store c9d1) 1 = 10 + 40 :=
  ⟨(c9_compensation_uses_stored_amount c9Store c9d1 c9d2 rfl).1,
   (c9_compensation_uses_stored_amount c9Store c9d1 c9d2 rfl).2.2 c9Tx ⟨1, 10⟩
     (by simp [c9Store, findTxByRef, List.find?, c9d1, c9Tx])
     (by simp [c9Store, findUser, List.find?, c9Tx])⟩

